import Mathlib

/-!
Shallow embedding of the pushr repository: a browser-agent REST client
(`BrowserAgentService`, from the unnamed service module) and the chat
conversation controller (`page.tsx`).

Modelling conventions:
* JavaScript strings are Lean `String`s; the UI literals are kept exactly
  as they appear in the source (Russian text).  The spec renders them in
  English ("No results" for "Нет результатов", "Task completed with no
  results" for "Задача выполнена без результатов", etc.).
* Optional TS fields become `Option`; JS truthiness of a possibly-absent
  string (`step.content`, `taskResult.error`) is `truthyStr`; the `||`
  defaulting idiom on strings/numbers is `strOrDefault` / `natOrDefault`.
* Message ids (`msg-${Date.now()}-${random}` in the source) are modelled
  by a monotone counter `nextId`: generated ids are fresh.  The `timestamp`
  field of a message is wall-clock data irrelevant to every claim and is
  omitted.
* React state setters become functional record updates; `setInterval`
  handles become `Timer` values held in the state.  `clearInterval`
  removes the handle.  A poll tick of a timer can fire exactly while its
  handle is registered.
* Each network call is parametrised by its outcome (`Except Unit α`):
  `.ok` for a resolved promise, `.error` for a rejected one.  A handler is
  a total Lean function of the state and the outcome, mirroring the
  try/catch structure of the source.
-/

namespace Pushr

/-- JS `String.prototype.trim`: strip leading and trailing whitespace
(modelled over the character list, so it evaluates in the kernel). -/
def jsTrim (s : String) : String :=
  String.mk (((s.data.dropWhile Char.isWhitespace).reverse.dropWhile
    Char.isWhitespace).reverse)

/-- JS truthiness of a possibly-absent string: present and non-empty. -/
def truthyStr (o : Option String) : Bool :=
  o.getD "" ≠ ""

/-- The `a || d` defaulting idiom on an optional string option: the default
is taken when the option is absent or falsy (empty). -/
def strOrDefault (o : Option String) (d : String) : String :=
  match o with
  | none => d
  | some v => if v = "" then d else v

/-- The `a || d` defaulting idiom on an optional numeric option: the default
is taken when the option is absent or falsy (zero). -/
def natOrDefault (o : Option Nat) (d : Nat) : Nat :=
  match o with
  | none => d
  | some v => if v = 0 then d else v

/-- One automation step result, as in the `TaskResult['results']` items. -/
structure StepResult where
  content : Option String
  error : Option String
  url : Option String
  title : Option String
  deriving DecidableEq

/-- A task status snapshot (TS interface `TaskResult`).  The TS interface
declares `results` as a required array, but `combineResults` defensively
guards `!results`, so the model keeps the field optional. -/
structure TaskResult where
  task_id : String
  status : String
  steps : Nat
  results : Option (List StepResult)
  error : Option String
  deriving DecidableEq

namespace BrowserAgentService

/-- `BrowserAgentService.combineResults`: fallback literal on an absent or
empty array, otherwise filter to truthy `content`, extract it, join with
a blank line. -/
def combineResults (results : Option (List StepResult)) : String :=
  match results with
  | none => "Нет результатов"
  | some rs =>
      if rs.isEmpty then "Нет результатов"
      else
        String.intercalate "\n\n"
          ((rs.filter (fun st => truthyStr st.content)).map (fun st => st.content.getD ""))

/-- Options accepted by `runTask`. -/
structure RunOptions where
  model : Option String
  provider : Option String
  max_steps : Option Nat
  deriving DecidableEq

/-- The JSON body `runTask` POSTs to `/run`. -/
structure RunBody where
  task : String
  headless : Bool
  model : String
  provider : String
  max_steps : Nat
  deriving DecidableEq

/-- The request body built by `BrowserAgentService.runTask`:
`options.model || 'gpt-4.1-nano-2025-04-14'`, `options.provider || 'openai'`,
`options.max_steps || 5`. -/
def runTaskBody (task : String) (headless : Bool) (options : RunOptions) : RunBody :=
  { task := task
    headless := headless
    model := strOrDefault options.model "gpt-4.1-nano-2025-04-14"
    provider := strOrDefault options.provider "openai"
    max_steps := natOrDefault options.max_steps 5 }

/-- Options accepted by `createTask`. -/
structure TaskOptions where
  model : Option String
  provider : Option String
  max_steps : Option Nat
  use_vision : Option Bool
  deriving DecidableEq

/-- The JSON body `createTask` POSTs to `/task`. -/
structure TaskBody where
  task : String
  headless : Bool
  model : String
  provider : String
  max_steps : Nat
  use_vision : Bool
  deriving DecidableEq

/-- `options.use_vision !== false`: true unless the option is explicitly
`false`. -/
def useVisionDefault (o : Option Bool) : Bool :=
  match o with
  | some false => false
  | _ => true

/-- The request body built by `BrowserAgentService.createTask`. -/
def createTaskBody (task : String) (headless : Bool) (options : TaskOptions) : TaskBody :=
  { task := task
    headless := headless
    model := strOrDefault options.model "gpt-4.1-nano-2025-04-14"
    provider := strOrDefault options.provider "openai"
    max_steps := natOrDefault options.max_steps 5
    use_vision := useVisionDefault options.use_vision }

end BrowserAgentService

/-- Message roles of the chat (`MessageType` in `page.tsx`). -/
inductive MessageType where
  | user
  | assistant
  | system
  deriving DecidableEq

/-- A chat message (`Message` in `page.tsx`; the wall-clock `timestamp`
field is omitted, see the header note). -/
structure Message where
  id : Nat
  type : MessageType
  content : String
  deriving DecidableEq

/-- A live `setInterval` handle created by `handleRunWithVisibleBrowser`:
its callback closes over the created task id and the id of the transient
loading message. -/
structure Timer where
  taskId : String
  loadingMsgId : Nat
  deriving DecidableEq

/-- The controller state of the `Home` component: input buffer `task`,
`messages`, `loading`, `taskId`, the set of live interval handles, and the
fresh-id counter for message ids. -/
structure ControllerState where
  task : String
  messages : List Message
  loading : Bool
  taskId : Option String
  timers : List Timer
  nextId : Nat
  deriving DecidableEq

/-- The initial component state: empty input, no messages, not loading,
no task id, no timers. -/
def initState : ControllerState :=
  { task := "", messages := [], loading := false, taskId := none,
    timers := [], nextId := 0 }

/-- `addMessage`: append a message with a fresh id and return that id. -/
def addMessage (s : ControllerState) (content : String) (ty : MessageType) :
    ControllerState × Nat :=
  ({ s with
      messages := s.messages ++ [{ id := s.nextId, type := ty, content := content }]
      nextId := s.nextId + 1 },
   s.nextId)

/-- `removeMessage`: drop every message with the given id. -/
def removeMessage (s : ControllerState) (id : Nat) : ControllerState :=
  { s with messages := s.messages.filter (fun m => m.id != id) }

/-- `handleRun` (sync path), parametrised by the outcome of
`BrowserAgentService.runTask`. -/
def handleRun (s : ControllerState) (outcome : Except Unit String) : ControllerState :=
  if jsTrim s.task = "" then s
  else
    let p1 := addMessage s s.task .user
    let s2 := { p1.1 with loading := true }
    let p3 := addMessage s2 "Выполняю задачу..." .system
    match outcome with
    | .ok result =>
        let s4 := removeMessage p3.1 p3.2
        let p5 := addMessage s4 result .assistant
        { p5.1 with task := "", loading := false }
    | .error _ =>
        let s4 := removeMessage p3.1 p3.2
        let p5 := addMessage s4 "Ошибка при выполнении задачи" .system
        { p5.1 with loading := false }

/-- `handleRunWithVisibleBrowser` (async path) up to the point the interval
is installed, parametrised by the outcome of `createTask`.  On success the
new interval handle (closing over the new task id and the loading-message
id) is registered; note that no existing timer is cleared. -/
def handleRunWithVisibleBrowser (s : ControllerState) (outcome : Except Unit String) :
    ControllerState :=
  if jsTrim s.task = "" then s
  else
    let p1 := addMessage s s.task .user
    let s2 := { p1.1 with loading := true }
    let p3 := addMessage s2 "Открываю браузер и выполняю задачу..." .system
    match outcome with
    | .ok newTaskId =>
        let s4 := { p3.1 with taskId := some newTaskId }
        { s4 with timers := s4.timers ++ [{ taskId := newTaskId, loadingMsgId := p3.2 }] }
    | .error _ =>
        let s4 := removeMessage p3.1 p3.2
        let p5 := addMessage s4 "Ошибка при запуске задачи" .system
        { p5.1 with loading := false }

/-- The assistant-message content chain of the terminal poll branch:
`combinedResult || taskResult.error || "Задача выполнена без результатов"`. -/
def chainContent (combined : String) (error : Option String) : String :=
  if combined ≠ "" then combined
  else if truthyStr error then error.getD ""
  else "Задача выполнена без результатов"

/-- One firing of the interval callback of timer `t`, parametrised by the
outcome of `getTaskStatus`.  Terminal statuses (`completed` / `failed`)
clear the interval, retract the loading message, append the combined
assistant message and reset the state; a non-terminal status changes
nothing; a failed status call clears the interval and reports a system
error (without clearing the input buffer). -/
def pollTick (s : ControllerState) (t : Timer) (outcome : Except Unit TaskResult) :
    ControllerState :=
  match outcome with
  | .ok tr =>
      if tr.status = "completed" ∨ tr.status = "failed" then
        let s1 := { s with timers := s.timers.filter (fun u => u != t) }
        let s2 := removeMessage s1 t.loadingMsgId
        let combined := BrowserAgentService.combineResults tr.results
        let p3 := addMessage s2 (chainContent combined tr.error) .assistant
        { p3.1 with loading := false, taskId := none, task := "" }
      else s
  | .error _ =>
      let s1 := { s with timers := s.timers.filter (fun u => u != t) }
      let s2 := removeMessage s1 t.loadingMsgId
      let p3 := addMessage s2 "Ошибка при проверке статуса задачи" .system
      { p3.1 with loading := false, taskId := none }

/-- `handleCancel`, parametrised by the outcome of `cancelTask`.  Note that
neither branch touches `timers`: the interval handle is a local of
`handleRunWithVisibleBrowser` and `handleCancel` has no reference to it. -/
def handleCancel (s : ControllerState) (outcome : Except Unit Unit) : ControllerState :=
  match s.taskId with
  | none => s
  | some _ =>
      match outcome with
      | .ok _ =>
          let p1 := addMessage s "Задача отменена" .system
          { p1.1 with taskId := none, loading := false }
      | .error _ =>
          (addMessage s "Ошибка при отмене задачи" .system).1

/-- Feed a list of `getTaskStatus` outcomes to the recurring timer `t`:
each tick fires (and hence calls `getTaskStatus`, counted in the second
component) exactly while the handle `t` is still registered. -/
def runPolls : ControllerState → Timer → List (Except Unit TaskResult) →
    ControllerState × Nat
  | s, _, [] => (s, 0)
  | s, t, o :: rest =>
      if t ∈ s.timers then
        let s1 := pollTick s t o
        let p := runPolls s1 t rest
        (p.1, p.2 + 1)
      else (s, 0)

/-- User-interface events, guarded as the rendered controls are: the
textarea and the submit button are disabled while `loading`, the cancel
button is rendered only while `loading` (and `handleCancel` itself guards
on a present task id); a tick fires only while its interval handle is
registered. -/
inductive Event where
  | submitSync (outcome : Except Unit String)
  | submitAsync (outcome : Except Unit String)
  | cancel (outcome : Except Unit Unit)
  | tick (t : Timer) (outcome : Except Unit TaskResult)
  | setInput (text : String)

/-- One guarded UI step of the controller. -/
def step (s : ControllerState) (e : Event) : ControllerState :=
  match e with
  | .submitSync o => if s.loading then s else handleRun s o
  | .submitAsync o => if s.loading then s else handleRunWithVisibleBrowser s o
  | .cancel o => if s.loading then handleCancel s o else s
  | .tick t o => if t ∈ s.timers then pollTick s t o else s
  | .setInput text => if s.loading then s else { s with task := text }

/-- Run a sequence of UI events from the initial state. -/
def runEvents (es : List Event) : ControllerState :=
  es.foldl step initState

/-- Written from the spec's words for `combineResults`: "Returns the literal
string \"No results\" [source literal: «Нет результатов»] if the sequence is
empty or absent.  Otherwise filters to steps with non-empty `content`,
extracts `content`, and joins with a blank-line separator.  Order preserved
from input." -/
def combineResultsSpec (results : Option (List StepResult)) : String :=
  match results with
  | none => "Нет результатов"
  | some [] => "Нет результатов"
  | some rs =>
      String.intercalate "\n\n"
        ((rs.filter (fun st => st.content.getD "" ≠ "")).map (fun st => st.content.getD ""))

/-- The poll outcomes of the spec's async scenario: `running`, then
`completed` with one step of content `"done"`; a third response is
supplied to witness that the timer no longer fires after the terminal
tick (so exactly two status calls happen). -/
def pollsC7 : List (Except Unit TaskResult) :=
  [.ok ⟨"abc", "running", 1, some [], none⟩,
   .ok ⟨"abc", "completed", 2, some [⟨some "done", none, none, none⟩], none⟩,
   .ok ⟨"abc", "running", 1, some [], none⟩]

/-- The state reached through the guarded UI after: typing "go",
submitting in visible-browser mode (`createTask` succeeds with id "abc"),
then cancelling (`cancelTask` succeeds).  Every step respects the rendered
guards: the input and submit are enabled because `loading` is false, and
the cancel button is shown because `loading` holds with a task id present. -/
def sCancelled : ControllerState :=
  runEvents [.setInput "go", .submitAsync (.ok "abc"), .cancel (.ok ())]

/- ------------------------------------------------------------------ -/
/- Helper lemmas shared by the claim theorems.                         -/
/- ------------------------------------------------------------------ -/

/-- Removing a message id at least as large as every id in the list is a
no-op (fresh ids are never already present). -/
theorem filter_ne_id_of_lt (ms : List Message) (j : Nat)
    (h : ∀ m ∈ ms, m.id < j) :
    ms.filter (fun m => m.id != j) = ms := by
  refine List.filter_eq_self.mpr (fun m hm => ?_)
  simpa [bne_iff_ne] using Nat.ne_of_lt (h m hm)

/-- A poll response is consumed (one `getTaskStatus` call) while the
interval handle is registered. -/
theorem runPolls_cons_of_mem (s : ControllerState) (t : Timer)
    (o : Except Unit TaskResult) (rest : List (Except Unit TaskResult))
    (h : t ∈ s.timers) :
    runPolls s t (o :: rest) =
      ((runPolls (pollTick s t o) t rest).1, (runPolls (pollTick s t o) t rest).2 + 1) := by
  simp [runPolls, h]

/-- Once the interval handle is cleared, no further poll response is
consumed: `getTaskStatus` is not called again on that timer. -/
theorem runPolls_cons_of_notmem (s : ControllerState) (t : Timer)
    (o : Except Unit TaskResult) (rest : List (Except Unit TaskResult))
    (h : t ∉ s.timers) :
    runPolls s t (o :: rest) = (s, 0) := by
  simp [runPolls, h]

/- ------------------------------------------------------------------ -/
/- Claim theorems.                                                     -/
/- ------------------------------------------------------------------ -/

/-- Claim C1 (code behaviour at the failing input).  After a successful
cancel of an active async task the stored task id does become empty and
the loading flag clears, but the recurring status-poll timer is NOT
stopped: `handleCancel` has no reference to the interval handle (a local
of `handleRunWithVisibleBrowser`) and never clears it.  Concretely, in the
reachable state after submit("go") with created id "abc" followed by a
successful cancel, the interval handle is still registered and a
subsequent tick performs one further `getTaskStatus` call — contradicting
the claim that no further status polls occur. -/
theorem claim_C1_cancel_does_not_stop_polling :
    sCancelled.taskId = none ∧
    sCancelled.loading = false ∧
    sCancelled.timers = [⟨"abc", 1⟩] ∧
    (runPolls sCancelled ⟨"abc", 1⟩ [.ok ⟨"abc", "running", 1, some [], none⟩]).2 = 1 := by
  decide

/-- Claim C2: `combineResults` is a pure total function (a total Lean
function of its argument, so calling it twice on the same input trivially
yields identical output and it cannot throw); it coincides everywhere with
the spec-side description `combineResultsSpec` — the fixed fallback
literal (source text «Нет результатов», which the spec renders in English
as "No results") on an absent or empty sequence, otherwise the contents of
exactly the steps with non-empty content, in input order, joined by
"\n\n"; and on the spec's example the content-less step is dropped. -/
theorem claim_C2_combineResults :
    (∀ r, BrowserAgentService.combineResults r = combineResultsSpec r) ∧
    BrowserAgentService.combineResults none = "Нет результатов" ∧
    BrowserAgentService.combineResults (some []) = "Нет результатов" ∧
    BrowserAgentService.combineResults
        (some [⟨some "a", none, none, none⟩, ⟨none, some "x", none, none⟩,
               ⟨some "b", none, none, none⟩]) = "a\n\nb" := by
  refine ⟨fun r => ?_, rfl, rfl, by decide⟩
  exact match r with
  | none => rfl
  | some [] => rfl
  | some (_ :: _) => rfl

/-- Claim C3: on a poll tick whose status is terminal (`completed` or
`failed`), the appended assistant message's content is the first truthy
value of the chain `combineResults(results) || error || fallback` (the
fallback literal's source text is «Задача выполнена без результатов», the
spec's "Task completed with no results"); and in the same step the
interval handle is cleared, the transient message removed, the task id
cleared, the input cleared and the loading flag dropped (back to Idle). -/
theorem claim_C3_terminal_poll (s : ControllerState) (t : Timer) (tr : TaskResult)
    (hterm : tr.status = "completed" ∨ tr.status = "failed") :
    (pollTick s t (.ok tr)).messages =
        s.messages.filter (fun m => m.id != t.loadingMsgId) ++
          [⟨s.nextId, .assistant,
            chainContent (BrowserAgentService.combineResults tr.results) tr.error⟩] ∧
    (pollTick s t (.ok tr)).timers = s.timers.filter (fun u => u != t) ∧
    (pollTick s t (.ok tr)).taskId = none ∧
    (pollTick s t (.ok tr)).task = "" ∧
    (pollTick s t (.ok tr)).loading = false ∧
    (BrowserAgentService.combineResults tr.results ≠ "" →
      chainContent (BrowserAgentService.combineResults tr.results) tr.error =
        BrowserAgentService.combineResults tr.results) ∧
    (∀ e, BrowserAgentService.combineResults tr.results = "" → tr.error = some e → e ≠ "" →
      chainContent (BrowserAgentService.combineResults tr.results) tr.error = e) ∧
    (BrowserAgentService.combineResults tr.results = "" →
      (tr.error = none ∨ tr.error = some "") →
      chainContent (BrowserAgentService.combineResults tr.results) tr.error =
        "Задача выполнена без результатов") := by
  have hp : pollTick s t (.ok tr) =
      { task := "",
        messages := s.messages.filter (fun m => m.id != t.loadingMsgId) ++
          [⟨s.nextId, .assistant,
            chainContent (BrowserAgentService.combineResults tr.results) tr.error⟩],
        loading := false, taskId := none,
        timers := s.timers.filter (fun u => u != t),
        nextId := s.nextId + 1 } := by
    simp only [pollTick]
    rw [if_pos hterm]
    simp [addMessage, removeMessage]
  refine ⟨by rw [hp], by rw [hp], by rw [hp], by rw [hp], by rw [hp], ?_, ?_, ?_⟩
  · intro h
    simp [chainContent, h]
  · intro e hc he hne
    simp [chainContent, hc, he, truthyStr, hne]
  · intro hc herr
    rcases herr with h | h <;> simp [chainContent, hc, h, truthyStr]

/-- Witness for C3: a terminal snapshot whose steps carry no content and
whose error is "boom" yields an assistant message "boom" (second link of
the chain), with the task id cleared. -/
theorem claim_C3_terminal_poll_witness :
    (pollTick initState ⟨"abc", 5⟩
        (.ok ⟨"abc", "completed", 1, some [⟨none, some "x", none, none⟩], some "boom"⟩)).messages
      = [⟨0, .assistant, "boom"⟩] ∧
    (pollTick initState ⟨"abc", 5⟩
        (.ok ⟨"abc", "completed", 1, some [⟨none, some "x", none, none⟩], some "boom"⟩)).taskId
      = none := by
  have h := claim_C3_terminal_poll initState ⟨"abc", 5⟩
      ⟨"abc", "completed", 1, some [⟨none, some "x", none, none⟩], some "boom"⟩ (Or.inl rfl)
  refine ⟨?_, h.2.2.1⟩
  rw [h.1]
  decide

/-- Claim C4, as stated, is false: the source uses the JS `||` idiom, so
the default is also taken when the option is SET to a falsy value.  At the
concrete input `max_steps := some 0` the body carries 5, not the
caller-supplied 0. -/
theorem claim_C4_counterexample :
    (BrowserAgentService.runTaskBody "t" true ⟨none, none, some 0⟩).max_steps = 5 ∧
    ¬ (BrowserAgentService.runTaskBody "t" true ⟨none, none, some 0⟩).max_steps = 0 := by
  decide

/-- Claim C4 amended: the `runTask` body carries the default exactly when
the option is unset OR set to a JS-falsy value (empty string for `model`
and `provider`, 0 for `max_steps`); otherwise it carries the
caller-supplied value; and the `createTask` body's `use_vision` field is
true unless the option is explicitly false. -/
theorem claim_C4_amended :
    (∀ task headless opts, (opts.model = none ∨ opts.model = some "") →
        (BrowserAgentService.runTaskBody task headless opts).model =
          "gpt-4.1-nano-2025-04-14") ∧
    (∀ task headless opts v, opts.model = some v → v ≠ "" →
        (BrowserAgentService.runTaskBody task headless opts).model = v) ∧
    (∀ task headless opts, (opts.provider = none ∨ opts.provider = some "") →
        (BrowserAgentService.runTaskBody task headless opts).provider = "openai") ∧
    (∀ task headless opts v, opts.provider = some v → v ≠ "" →
        (BrowserAgentService.runTaskBody task headless opts).provider = v) ∧
    (∀ task headless opts, (opts.max_steps = none ∨ opts.max_steps = some 0) →
        (BrowserAgentService.runTaskBody task headless opts).max_steps = 5) ∧
    (∀ task headless opts v, opts.max_steps = some v → v ≠ 0 →
        (BrowserAgentService.runTaskBody task headless opts).max_steps = v) ∧
    (∀ task headless opts,
        (BrowserAgentService.createTaskBody task headless opts).use_vision = true ↔
          opts.use_vision ≠ some false) := by
  refine ⟨?_, ?_, ?_, ?_, ?_, ?_, ?_⟩
  · rintro task headless opts (h | h) <;>
      simp [BrowserAgentService.runTaskBody, strOrDefault, h]
  · intro task headless opts v h hne
    simp [BrowserAgentService.runTaskBody, strOrDefault, h, hne]
  · rintro task headless opts (h | h) <;>
      simp [BrowserAgentService.runTaskBody, strOrDefault, h]
  · intro task headless opts v h hne
    simp [BrowserAgentService.runTaskBody, strOrDefault, h, hne]
  · rintro task headless opts (h | h) <;>
      simp [BrowserAgentService.runTaskBody, natOrDefault, h]
  · intro task headless opts v h hne
    simp [BrowserAgentService.runTaskBody, natOrDefault, h, hne]
  · intro task headless opts
    rcases h : opts.use_vision with _ | b
    · simp [BrowserAgentService.createTaskBody, BrowserAgentService.useVisionDefault, h]
    · cases b <;>
        simp [BrowserAgentService.createTaskBody, BrowserAgentService.useVisionDefault, h]

/-- Witness for the amended C4: a truthy supplied model, provider and step
count are carried through, an unset provider falls back to "openai", and
an explicit `use_vision := false` turns the field off. -/
theorem claim_C4_amended_witness :
    (BrowserAgentService.runTaskBody "t" true ⟨some "m", some "p", some 3⟩).model = "m" ∧
    (BrowserAgentService.runTaskBody "t" true ⟨some "m", some "p", some 3⟩).provider = "p" ∧
    (BrowserAgentService.runTaskBody "t" true ⟨some "m", none, some 3⟩).provider = "openai" ∧
    (BrowserAgentService.runTaskBody "t" true ⟨some "m", some "p", some 3⟩).max_steps = 3 ∧
    ((BrowserAgentService.createTaskBody "t" false ⟨none, none, none, some false⟩).use_vision
        = true ↔
      (⟨none, none, none, some false⟩ : BrowserAgentService.TaskOptions).use_vision
        ≠ some false) :=
  ⟨claim_C4_amended.2.1 "t" true ⟨some "m", some "p", some 3⟩ "m" rfl (by decide),
   claim_C4_amended.2.2.2.1 "t" true ⟨some "m", some "p", some 3⟩ "p" rfl (by decide),
   claim_C4_amended.2.2.1 "t" true ⟨some "m", none, some 3⟩ (Or.inl rfl),
   claim_C4_amended.2.2.2.2.2.1 "t" true ⟨some "m", some "p", some 3⟩ 3 rfl (by decide),
   claim_C4_amended.2.2.2.2.2.2 "t" false ⟨none, none, none, some false⟩⟩

/-- Claim C5: a successful sync submission with a non-blank task text
makes the message list gain exactly two entries in order — the user
message carrying the input text, then the assistant message carrying the
service's result — with the transient system message absent from the final
list, the input buffer cleared, and the controller back to Idle (loading
off); the task id and timers are untouched.  The freshness hypothesis
`hids` models the uniqueness of generated message ids. -/
theorem claim_C5_sync_success (s : ControllerState) (result : String)
    (htask : jsTrim s.task ≠ "")
    (hids : ∀ m ∈ s.messages, m.id < s.nextId) :
    (handleRun s (.ok result)).messages =
        s.messages ++ [⟨s.nextId, .user, s.task⟩, ⟨s.nextId + 2, .assistant, result⟩] ∧
    (handleRun s (.ok result)).task = "" ∧
    (handleRun s (.ok result)).loading = false ∧
    (handleRun s (.ok result)).taskId = s.taskId ∧
    (handleRun s (.ok result)).timers = s.timers ∧
    (handleRun s (.ok result)).nextId = s.nextId + 3 := by
  have hself : s.messages.filter (fun m => m.id != s.nextId + 1) = s.messages :=
    filter_ne_id_of_lt s.messages (s.nextId + 1)
      (fun m hm => Nat.lt_succ_of_lt (hids m hm))
  simp [handleRun, htask, addMessage, removeMessage, List.filter_append, hself]

/-- Witness for C5: submitting "hi" with result "res" from the initial
state yields exactly the user and assistant messages. -/
theorem claim_C5_sync_success_witness :
    (handleRun { initState with task := "hi" } (.ok "res")).messages =
      [⟨0, .user, "hi"⟩, ⟨2, .assistant, "res"⟩] ∧
    (handleRun { initState with task := "hi" } (.ok "res")).task = "" := by
  have h := claim_C5_sync_success { initState with task := "hi" } "res"
      (by decide) (by simp [initState])
  exact ⟨by simpa [initState] using h.1, h.2.1⟩

/-- Claim C6: a failed sync submission (the `runTask` promise rejects)
makes the message list gain exactly two entries — the user message and the
system error message — and no assistant message is added (the filtered
assistant sublist is unchanged); the failure is absorbed by the
try/catch (the handler is a total function) and the controller returns to
Idle with the task id and timers untouched. -/
theorem claim_C6_sync_failure (s : ControllerState)
    (htask : jsTrim s.task ≠ "")
    (hids : ∀ m ∈ s.messages, m.id < s.nextId) :
    (handleRun s (.error ())).messages =
        s.messages ++ [⟨s.nextId, .user, s.task⟩,
          ⟨s.nextId + 2, .system, "Ошибка при выполнении задачи"⟩] ∧
    (handleRun s (.error ())).messages.filter (fun m => m.type == MessageType.assistant) =
        s.messages.filter (fun m => m.type == MessageType.assistant) ∧
    (handleRun s (.error ())).loading = false ∧
    (handleRun s (.error ())).taskId = s.taskId ∧
    (handleRun s (.error ())).timers = s.timers := by
  have hself : s.messages.filter (fun m => m.id != s.nextId + 1) = s.messages :=
    filter_ne_id_of_lt s.messages (s.nextId + 1)
      (fun m hm => Nat.lt_succ_of_lt (hids m hm))
  simp [handleRun, htask, addMessage, removeMessage, List.filter_append, hself]

/-- Witness for C6: submitting "hi" with a rejected promise from the
initial state yields the user message and a system error message only. -/
theorem claim_C6_sync_failure_witness :
    (handleRun { initState with task := "hi" } (.error ())).messages =
      [⟨0, .user, "hi"⟩, ⟨2, .system, "Ошибка при выполнении задачи"⟩] := by
  have h := claim_C6_sync_failure { initState with task := "hi" }
      (by decide) (by simp [initState])
  simpa [initState] using h.1

/-- Claim C7: in the async flow, when `createTask` returns "abc" and the
status polls return `running` then `completed` with one step of content
"done", exactly two `getTaskStatus` calls are performed (a third pending
response is not consumed: the timer has been cleared), the message list
gains exactly the user message and one assistant message with content
"done", and the stored task id is empty afterwards. -/
theorem claim_C7_async_scenario (s : ControllerState)
    (htask : jsTrim s.task ≠ "")
    (hids : ∀ m ∈ s.messages, m.id < s.nextId)
    (htimers : s.timers = []) :
    (runPolls (handleRunWithVisibleBrowser s (.ok "abc"))
        ⟨"abc", s.nextId + 1⟩ pollsC7).2 = 2 ∧
    (runPolls (handleRunWithVisibleBrowser s (.ok "abc"))
        ⟨"abc", s.nextId + 1⟩ pollsC7).1.messages =
      s.messages ++ [⟨s.nextId, .user, s.task⟩, ⟨s.nextId + 2, .assistant, "done"⟩] ∧
    (runPolls (handleRunWithVisibleBrowser s (.ok "abc"))
        ⟨"abc", s.nextId + 1⟩ pollsC7).1.taskId = none := by
  have h1 : handleRunWithVisibleBrowser s (.ok "abc") =
      { task := s.task,
        messages := s.messages ++ [⟨s.nextId, .user, s.task⟩,
          ⟨s.nextId + 1, .system, "Открываю браузер и выполняю задачу..."⟩],
        loading := true, taskId := some "abc",
        timers := [⟨"abc", s.nextId + 1⟩], nextId := s.nextId + 2 } := by
    simp [handleRunWithVisibleBrowser, htask, addMessage, htimers]
  have hself : s.messages.filter (fun m => m.id != s.nextId + 1) = s.messages :=
    filter_ne_id_of_lt s.messages (s.nextId + 1)
      (fun m hm => Nat.lt_succ_of_lt (hids m hm))
  have hrun : pollTick
      { task := s.task,
        messages := s.messages ++ [⟨s.nextId, .user, s.task⟩,
          ⟨s.nextId + 1, .system, "Открываю браузер и выполняю задачу..."⟩],
        loading := true, taskId := some "abc",
        timers := [⟨"abc", s.nextId + 1⟩], nextId := s.nextId + 2 }
      ⟨"abc", s.nextId + 1⟩ (.ok ⟨"abc", "running", 1, some [], none⟩) =
      { task := s.task,
        messages := s.messages ++ [⟨s.nextId, .user, s.task⟩,
          ⟨s.nextId + 1, .system, "Открываю браузер и выполняю задачу..."⟩],
        loading := true, taskId := some "abc",
        timers := [⟨"abc", s.nextId + 1⟩], nextId := s.nextId + 2 } := by
    simp only [pollTick]
    rw [if_neg (by decide)]
  have hdone : pollTick
      { task := s.task,
        messages := s.messages ++ [⟨s.nextId, .user, s.task⟩,
          ⟨s.nextId + 1, .system, "Открываю браузер и выполняю задачу..."⟩],
        loading := true, taskId := some "abc",
        timers := [⟨"abc", s.nextId + 1⟩], nextId := s.nextId + 2 }
      ⟨"abc", s.nextId + 1⟩
      (.ok ⟨"abc", "completed", 2, some [⟨some "done", none, none, none⟩], none⟩) =
      { task := "",
        messages := s.messages ++ [⟨s.nextId, .user, s.task⟩,
          ⟨s.nextId + 2, .assistant, "done"⟩],
        loading := false, taskId := none,
        timers := [], nextId := s.nextId + 3 } := by
    simp only [pollTick]
    rw [if_pos (by decide)]
    simp [addMessage, removeMessage, List.filter_append, hself]
    decide
  rw [pollsC7, h1,
    runPolls_cons_of_mem _ _ _ _ (by simp), hrun,
    runPolls_cons_of_mem _ _ _ _ (by simp), hdone,
    runPolls_cons_of_notmem _ _ _ _ (by simp)]
  simp

/-- Witness for C7: the scenario run from the initial state with input
"go" performs exactly two status calls. -/
theorem claim_C7_async_scenario_witness :
    (runPolls (handleRunWithVisibleBrowser { initState with task := "go" } (.ok "abc"))
        ⟨"abc", 0 + 1⟩ pollsC7).2 = 2 ∧
    (runPolls (handleRunWithVisibleBrowser { initState with task := "go" } (.ok "abc"))
        ⟨"abc", 0 + 1⟩ pollsC7).1.taskId = none := by
  have h := claim_C7_async_scenario { initState with task := "go" }
      (by decide) (by simp [initState]) rfl
  exact ⟨h.1, h.2.2⟩

/-- Claim C8: when `cancelTask` rejects, the controller appends one system
error message and changes nothing else — the loading flag, task id, input
buffer, timers and all existing messages are exactly preserved (the state
equation below fixes every field). -/
theorem claim_C8_cancel_failure_frame (s : ControllerState) (tid : String)
    (h : s.taskId = some tid) :
    handleCancel s (.error ()) =
      { s with
        messages := s.messages ++ [⟨s.nextId, .system, "Ошибка при отмене задачи"⟩]
        nextId := s.nextId + 1 } := by
  simp [handleCancel, h, addMessage]

/-- Witness for C8: a loading state with task id "abc" keeps its loading
flag and task id across a failed cancel. -/
theorem claim_C8_cancel_failure_frame_witness :
    handleCancel { initState with loading := true, taskId := some "abc" } (.error ()) =
      { initState with
        loading := true
        taskId := some "abc"
        messages := [⟨0, .system, "Ошибка при отмене задачи"⟩]
        nextId := 1 } := by
  have h := claim_C8_cancel_failure_frame
      { initState with loading := true, taskId := some "abc" } "abc" rfl
  simpa [initState] using h

/-- Claim C9 (code behaviour at the failing input).  The stored task id is
a single optional field, so at most one exists; but the "at most one
active poll timer" half fails on a reachable, guard-respecting trace: the
successful cancel leaves the first interval registered (see C1) while
re-enabling the input, and a second async submission registers a second
interval — two are then active at once. -/
theorem claim_C9_two_timers_reachable :
    (step sCancelled (.submitAsync (.ok "xyz"))).timers = [⟨"abc", 1⟩, ⟨"xyz", 4⟩] ∧
    (step sCancelled (.submitAsync (.ok "xyz"))).timers.length = 2 := by
  decide

/-- Claim C10: with an empty or whitespace-only input, both submission
handlers are complete no-ops for every possible call outcome: the state
(messages, loading flag, task id, timers, input) is returned unchanged and,
by the state equations of the handlers, nothing else can have happened. -/
theorem claim_C10_blank_input_noop (s : ControllerState) (h : jsTrim s.task = "")
    (o1 : Except Unit String) (o2 : Except Unit String) :
    handleRun s o1 = s ∧ handleRunWithVisibleBrowser s o2 = s := by
  constructor <;> simp [handleRun, handleRunWithVisibleBrowser, h]

/-- Witness for C10: a single-space input is a no-op for both handlers. -/
theorem claim_C10_blank_input_noop_witness :
    handleRun { initState with task := " " } (.ok "r") = { initState with task := " " } ∧
    handleRunWithVisibleBrowser { initState with task := " " } (.error ()) =
      { initState with task := " " } :=
  claim_C10_blank_input_noop { initState with task := " " } (by decide) (.ok "r") (.error ())

end Pushr
